import Mathlib

/-!
Verification of the event unification and study-block scheduling engine of the
simplesites repository (a React Native study-calendar app).

The definitions below are shallow embeddings of the JavaScript source:
* `src/utils/dateHelpers.js` : `getDateKey`, `subtractDays`
* `src/App.js`               : `categorizeEvent`, `isCanvasByKeyword`, the merge
  logic of `fetchGoogleCalendarEventsData`, `fetchGoogleEvents` and
  `fetchCanvasEvents`, `getAllAssignments`, `getSortedAssignments`,
  `addNewAssignment`, `priorityColors`
* `src/unnamed/part_000`     : `parseICSFeed`
* `src/unnamed/part_001`     : `generateStudyBlocks`, `scheduleStudyBlocks`

JavaScript `Date` instants are modelled as a civil date plus a time of day,
with the host timezone taken to be UTC (so `toISOString` date truncation and
`setDate` arithmetic agree on the calendar date).  Strings stand for themselves;
JS `undefined` on optional inputs is `Option`; the truthiness test `s || d` on
strings is `orElseStr`.  JS object maps keyed by date strings are association
lists in which an existing key is updated in place and a fresh key is appended,
matching JS property insertion order.
-/

/-- A JavaScript `Date` instant: civil date plus wall-clock time, host timezone
assumed UTC. -/
structure JSDate where
  year : Nat
  month : Nat
  day : Nat
  hour : Nat := 0
  minute : Nat := 0
deriving DecidableEq, Repr

/-- Two-digit zero padding, as in `toISOString` month/day fields. -/
def pad2 (n : Nat) : String :=
  if n < 10 then "0" ++ toString n else toString n

/-- Four-digit zero padding, as in the `toISOString` year field. -/
def pad4 (n : Nat) : String :=
  if n < 10 then "000" ++ toString n
  else if n < 100 then "00" ++ toString n
  else if n < 1000 then "0" ++ toString n
  else toString n

/-- `getDateKey` from `src/utils/dateHelpers.js`:
`new Date(date).toISOString().split('T')[0]` — the YYYY-MM-DD date part. -/
def getDateKey (date : JSDate) : String :=
  pad4 date.year ++ "-" ++ pad2 date.month ++ "-" ++ pad2 date.day

/-- Gregorian leap-year test (JS `Date` calendar). -/
def isLeapYear (y : Nat) : Bool :=
  (y % 4 == 0 && y % 100 != 0) || y % 400 == 0

/-- Number of days of a month in the JS `Date` calendar. -/
def daysInMonth (y m : Nat) : Nat :=
  if m = 2 then (if isLeapYear y then 29 else 28)
  else if m = 4 ∨ m = 6 ∨ m = 9 ∨ m = 11 then 30
  else 31

/-- One calendar day earlier, keeping the time of day (the effect of
`result.setDate(result.getDate() - 1)` on the model). -/
def prevDay (d : JSDate) : JSDate :=
  if d.day > 1 then { d with day := d.day - 1 }
  else if d.month > 1 then { d with month := d.month - 1, day := daysInMonth d.year (d.month - 1) }
  else { d with year := d.year - 1, month := 12, day := 31 }

/-- `subtractDays` from `src/utils/dateHelpers.js`:
`result.setDate(result.getDate() - days)`. -/
def subtractDays (date : JSDate) : Nat → JSDate
  | 0 => date
  | n + 1 => prevDay (subtractDays date n)

/-- Stand-in for `toLocaleTimeString([], {hour: '2-digit', minute: '2-digit'})`:
a deterministic HH:MM rendering of the wall-clock time. -/
def fmtTime (d : JSDate) : String :=
  pad2 d.hour ++ ":" ++ pad2 d.minute

/-- Whether `pat` occurs as a contiguous sublist of `l`
(the semantics of JS `String.prototype.includes`). -/
def containsSubList (pat : List Char) : List Char → Bool
  | [] => pat.isPrefixOf []
  | c :: rest => pat.isPrefixOf (c :: rest) || containsSubList pat rest

/-- JS `s.includes(pat)`. -/
def strIncludes (s pat : String) : Bool :=
  containsSubList pat.data s.data

/-- JS `s.toLowerCase()`, computed on the character list (kernel-reducible). -/
def jsToLower (s : String) : String :=
  ⟨s.data.map Char.toLower⟩

/-- JS `s.trim()`: strip leading and trailing whitespace. -/
def jsTrim (s : String) : String :=
  ⟨((s.data.dropWhile Char.isWhitespace).reverse.dropWhile Char.isWhitespace).reverse⟩

/-- JS string truthiness fallback `s || d` for an optional string. -/
def orElseStr (s : Option String) (d : String) : String :=
  match s with
  | some x => if x = "" then d else x
  | none => d

/-- `categorizeEvent` from `src/App.js` (lines 949-985): case-insensitive
substring keyword matching against an ordered category table, first match
wins; returns `(category, dotColor)`. -/
def categorizeEvent (title : String) : String × String :=
  let titleLower := jsToLower title
  if strIncludes titleLower "hon" || strIncludes titleLower "humanities" ||
     strIncludes titleLower "math" || strIncludes titleLower "calculus" ||
     strIncludes titleLower "physics" || strIncludes titleLower "spanish" then
    ("Classes", "#1e88e5")
  else if strIncludes titleLower "cross country" || strIncludes titleLower "ath" ||
     strIncludes titleLower "practice" then
    ("Sports/Activities", "#43a047")
  else if strIncludes titleLower "meeting" || strIncludes titleLower "chapel" ||
     strIncludes titleLower "advisor" then
    ("Meetings/Chapel/Advisory", "#fdd835")
  else if strIncludes titleLower "homework" || strIncludes titleLower "test" ||
     strIncludes titleLower "quiz" || strIncludes titleLower "essay" ||
     strIncludes titleLower "project" then
    ("Assignments/Tests", "#e53935")
  else
    ("Other", "#9e9e9e")

/-- `isCanvasByKeyword` from `src/App.js` (lines 1503-1509): keyword-based
Canvas-assignment detection over combined title and description. -/
def isCanvasByKeyword (title description : String) : Bool :=
  let text := jsToLower (title ++ " " ++ description)
  strIncludes text "hw" || strIncludes text "homework" ||
  strIncludes text "essay" || strIncludes text "project" ||
  strIncludes text "paper" || strIncludes text "quiz" ||
  strIncludes text "assignment"

/-- `event.colorId === '11'` from `src/App.js` line 1500 (red block marker). -/
def isRedEvent (colorId : Option String) : Bool :=
  colorId == some "11"

/-- `const isCanvas = isRedEvent || isCanvasByKeyword(...)` from
`src/App.js` line 1512. -/
def isCanvasFlag (colorId : Option String) (title description : String) : Bool :=
  isRedEvent colorId || isCanvasByKeyword title description

/-- The loosely-typed event record of the unified store.  The JS source keeps
one object shape with many optional properties depending on the source; absent
string properties are modelled as `""`, absent `colorId` as `none`.  The
`type` field is the source tag: `"assignment"` (manual / class), `"CanvasAssignment"`
(Canvas feed), `"google"` (Google Calendar API), `"GoogleEvent"` (Apps Script
proxy), `"study"` (generated study block). -/
structure Event where
  id : String := ""
  title : String := ""
  description : String := ""
  time : String := ""
  endTime : String := ""
  type : String := ""
  category : String := ""
  dotColor : String := ""
  dotColorByPriority : String := ""
  location : String := ""
  htmlLink : String := ""
  colorId : Option String := none
  course : String := ""
  assignmentType : String := ""
  priority : String := ""
  completed : Bool := false
  source : String := ""
  date : String := ""
  dueDate : String := ""
  notificationIds : List String := []
deriving DecidableEq, Repr

/-- The per-date event store (`googleEvents` state in `src/App.js`): a JS
object mapping a dateKey to `{assignments: [...]}`, modelled as an association
list in property insertion order. -/
abbrev Store := List (String × List Event)

/-- First-occurrence lookup in a JS-object-like association list. -/
def getEntry {α : Type} : List (String × α) → String → Option α
  | [], _ => none
  | (k, v) :: rest, key => if k = key then some v else getEntry rest key

/-- JS property write: update the existing key in place, or append a new key. -/
def setEntry {α : Type} : List (String × α) → String → α → List (String × α)
  | [], key, v => [(key, v)]
  | (k, w) :: rest, key, v =>
      if k = key then (k, v) :: rest else (k, w) :: setEntry rest key v

/-- `store[dateKey]?.assignments || []`. -/
def getBucket {α : Type} (s : List (String × List α)) (key : String) : List α :=
  (getEntry s key).getD []

/-- The upsert of `src/App.js` lines 1581-1606 (also 1044-1052), restricted to
one bucket: drop any existing event with the incoming `id`, then append the
incoming event. -/
def upsertBucket (b : List Event) (e : Event) : List Event :=
  b.filter (fun x => x.id != e.id) ++ [e]

/-- The store-level effect of ingesting one event at its dateKey. -/
def upsertStore (s : Store) (key : String) (e : Event) : Store :=
  setEntry s key (upsertBucket (getBucket s key) e)

/-- Ingest a batch of already-keyed events, one upsert per event. -/
def mergeKeyed (s : Store) (ps : List (String × Event)) : Store :=
  ps.foldl (fun acc p => upsertStore acc p.1 p.2) s

/-- A raw Google Calendar API event (`fetchGoogleCalendarEventsData` input):
`{id, summary, description, start, end, location, htmlLink, colorId}`.
`start = none` models a missing `start.dateTime`/`start.date`. -/
structure GEvent where
  id : String := ""
  summary : Option String := none
  description : Option String := none
  start : Option JSDate := none
  endD : Option JSDate := none
  location : Option String := none
  htmlLink : Option String := none
  colorId : Option String := none
deriving DecidableEq, Repr

/-- The adapter step of `fetchGoogleCalendarEventsData` (`src/App.js`
lines 1485-1604): classify one raw Google event and build the unified record
together with its dateKey; `none` when the event has no start instant. -/
def adaptGoogleCalendarEvent (event : GEvent) : Option (String × Event) :=
  match event.start with
  | none => none
  | some eventDate =>
    let dateKey := getDateKey eventDate
    let endDate := event.endD.getD eventDate
    let eventTitle := orElseStr event.summary "Google Event"
    let eventDescription := orElseStr event.description ""
    let isCanvas := isCanvasFlag event.colorId eventTitle eventDescription
    let isClassEvent := !isCanvas && eventTitle != "" && jsTrim eventTitle != ""
    let tcd :=
      if isCanvas then ("CanvasAssignment", "Canvas Assignment", "#ff9800")
      else if isClassEvent then ("assignment", "Class", "#ff6b6b")
      else ("google", "Google Event", "#2196f3")
    some (dateKey,
      { title := eventTitle
        description := eventDescription
        time := fmtTime eventDate
        endTime := fmtTime endDate
        type := tcd.1
        category := tcd.2.1
        dotColor := tcd.2.2
        location := orElseStr event.location ""
        htmlLink := orElseStr event.htmlLink ""
        id := event.id
        colorId := event.colorId })

/-- The merge loop of `fetchGoogleCalendarEventsData` (`src/App.js`
lines 1473-1608): for each raw Google event with a start instant, dedup the
target bucket by exact `id` and append the adapted record. -/
def mergeGoogleCalendarEvents (s : Store) (events : List GEvent) : Store :=
  events.foldl (fun acc g =>
    match adaptGoogleCalendarEvent g with
    | none => acc
    | some (dateKey, e) => upsertStore acc dateKey e) s

/-- The merge loop of `fetchGoogleEvents` (`src/App.js` lines 1034-1055) over
the already-adapted Apps Script events: each record is upserted into the bucket
named by its `date` field, dedup by exact `id`. -/
def mergeAppsScriptEvents (s : Store) (events : List Event) : Store :=
  events.foldl (fun acc e => upsertStore acc e.date e) s

/-- The merge loop of `fetchCanvasEvents` (`src/App.js` lines 1805-1823): for
each date of the incoming Canvas structure, keep every existing event that is
not a `CanvasAssignment` with an incoming `id`, then append the incoming
Canvas assignments. -/
def mergeCanvasEvents (s : Store) (canvasEvents : List (String × List Event)) : Store :=
  canvasEvents.foldl (fun acc p =>
    let existingEvents := getBucket acc p.1
    let canvasEventIds := p.2.map (fun e => e.id)
    setEntry acc p.1
      ((existingEvents.filter (fun x =>
          x.type != "CanvasAssignment" || !(canvasEventIds.contains x.id))) ++ p.2)) s

/-- `getAllAssignments` from `src/App.js` (lines 2062-2079): flatten the store,
keeping only `assignment` and `CanvasAssignment` events, attaching
`dueDate = dateKey`. -/
def getAllAssignments : Store → List Event
  | [] => []
  | (date, dayEvents) :: rest =>
      (dayEvents.filter (fun e =>
          e.type == "assignment" || e.type == "CanvasAssignment")).map
        (fun e => { e with dueDate := date }) ++ getAllAssignments rest

/-- `priorityOrder` lookup of `src/App.js` line 2091 (`{High: 3, Medium: 2, Low: 1}`);
an unlisted label is ranked below `Low` (in JS the lookup is `undefined`). -/
def priorityOrder (p : String) : Nat :=
  if p = "High" then 3 else if p = "Medium" then 2 else if p = "Low" then 1 else 0

/-- The `priority` comparator of `getSortedAssignments` as a "a sorts no later
than b" test: descending priority rank first, then ascending `dueDate`
(`new Date(a.dueDate) - new Date(b.dueDate)` on YYYY-MM-DD keys is string
order). -/
def priorityCompareLE (a b : Event) : Bool :=
  if priorityOrder a.priority = priorityOrder b.priority then
    decide (a.dueDate ≤ b.dueDate)
  else
    decide (priorityOrder b.priority < priorityOrder a.priority)

/-- The `class` comparator: ascending `(a.course || '').localeCompare(b.course || '')`. -/
def classLE (a b : Event) : Bool :=
  decide (a.course ≤ b.course)

/-- The `type` comparator: ascending on `assignmentType`. -/
def typeLE (a b : Event) : Bool :=
  decide (a.assignmentType ≤ b.assignmentType)

/-- The `category` comparator: ascending on `category || 'Other'`, ties broken
by ascending `dueDate`. -/
def categoryLE (a b : Event) : Bool :=
  let categoryA := if a.category = "" then "Other" else a.category
  let categoryB := if b.category = "" then "Other" else b.category
  if categoryA = categoryB then decide (a.dueDate ≤ b.dueDate)
  else decide (categoryA ≤ categoryB)

/-- The `date` comparator: ascending `dueDate`. -/
def dateLE (a b : Event) : Bool :=
  decide (a.dueDate ≤ b.dueDate)

/-- `getSortedAssignments` from `src/App.js` (lines 2081-2108): flatten via
`getAllAssignments`, then stably sort by the selected key; an unknown key falls
through to the `date` ordering. -/
def getSortedAssignments (s : Store) (sortBy : String) : List Event :=
  let assignments := getAllAssignments s
  if sortBy = "class" then assignments.mergeSort classLE
  else if sortBy = "type" then assignments.mergeSort typeLE
  else if sortBy = "priority" then assignments.mergeSort priorityCompareLE
  else if sortBy = "category" then assignments.mergeSort categoryLE
  else assignments.mergeSort dateLE

/-- An assignment as consumed by the study-block generators of
`src/unnamed/part_001`: only `id`, `title` and `startDate` are read. -/
structure SAssignment where
  id : String := ""
  title : String := ""
  startDate : JSDate
deriving DecidableEq, Repr

/-- A generated study block (`sourceType = StudyBlock`).  `time` is `Option`
because multi-slot selection indexes `preferredTimes` and JS yields `undefined`
on an out-of-range index. -/
structure StudyBlock where
  id : String
  title : String
  description : String
  time : Option String
  duration : String
  type : String
  relatedAssignment : String
  studyDate : JSDate
deriving DecidableEq, Repr

/-- The per-date map of generated study blocks. -/
abbrev SBStore := List (String × List StudyBlock)

/-- Options of `generateStudyBlocks` with the source's defaults. -/
structure StudyOptions where
  studyTime : String := "19:00"
  duration : String := "1 hour"
  daysBefore : Nat := 1
deriving DecidableEq, Repr

/-- The study block literal of `generateStudyBlocks` (`src/unnamed/part_001`
lines 19-28). -/
def mkStudyBlock (assignment : SAssignment) (options : StudyOptions)
    (studyDate : JSDate) : StudyBlock :=
  { id := "study_" ++ assignment.id
    title := "Study for " ++ assignment.title
    description := "Prepare for: " ++ assignment.title
    time := some options.studyTime
    duration := options.duration
    type := "study"
    relatedAssignment := assignment.id
    studyDate := studyDate }

/-- `generateStudyBlocks` from `src/unnamed/part_001` (lines 4-38): default
single-slot mode — one study block per assignment, dated `daysBefore` days
before the assignment, at `studyTime`. -/
def generateStudyBlocks (assignments : List SAssignment)
    (options : StudyOptions) : SBStore :=
  assignments.foldl (fun studyBlocks assignment =>
    let studyDate := subtractDays assignment.startDate options.daysBefore
    let studyDateKey := getDateKey studyDate
    setEntry studyBlocks studyDateKey
      (getBucket studyBlocks studyDateKey ++ [mkStudyBlock assignment options studyDate])) []

/-- Preferences of `scheduleStudyBlocks` with the source's defaults. -/
structure StudyPreferences where
  preferredTimes : List String := ["19:00", "20:00", "21:00"]
  duration : String := "1 hour"
  daysBefore : Nat := 1
  maxStudyBlocksPerDay : Nat := 3
deriving DecidableEq, Repr

/-- `scheduleStudyBlocks` from `src/unnamed/part_001` (lines 40-88): multi-slot
mode — per-date counter selects `preferredTimes[count % length]`; once the
counter reaches `maxStudyBlocksPerDay` further assignments for that date are
silently skipped. -/
def scheduleStudyBlocks (assignments : List SAssignment)
    (studyPreferences : StudyPreferences) : SBStore :=
  (assignments.foldl (fun (acc : SBStore × List (String × Nat)) assignment =>
    let studyDate := subtractDays assignment.startDate studyPreferences.daysBefore
    let studyDateKey := getDateKey studyDate
    let count := (getEntry acc.2 studyDateKey).getD 0
    if count ≥ studyPreferences.maxStudyBlocksPerDay then acc
    else
      let timeIndex := count % studyPreferences.preferredTimes.length
      let selectedTime := studyPreferences.preferredTimes[timeIndex]?
      let studyBlock : StudyBlock :=
        { id := "study_" ++ assignment.id
          title := "Study for " ++ assignment.title
          description := "Prepare for: " ++ assignment.title
          time := selectedTime
          duration := studyPreferences.duration
          type := "study"
          relatedAssignment := assignment.id
          studyDate := studyDate }
      (setEntry acc.1 studyDateKey (getBucket acc.1 studyDateKey ++ [studyBlock]),
       setEntry acc.2 studyDateKey (count + 1))) (([], []) : SBStore × List (String × Nat))).1

/-- Total number of study blocks across all dates of the result map. -/
def totalStudyBlocks (s : SBStore) : Nat :=
  (s.map (fun p => p.2.length)).sum

/-- A decoded VEVENT block as produced by the external `ical.js` decoder
(`ICAL.Event`): optional uid/summary/description/location/url and the start and
end instants.  Per the parser's input contract every block carries at least a
start instant. -/
structure RawVevent where
  uid : Option String := none
  summary : Option String := none
  description : Option String := none
  location : Option String := none
  url : Option String := none
  startDate : JSDate
  endDate : JSDate
deriving DecidableEq, Repr

/-- The normalized event record returned by `parseICSFeed`. -/
structure ICSEvent where
  id : String
  title : String
  description : String
  startDate : JSDate
  endDate : JSDate
  location : String
  url : String
  type : String
deriving DecidableEq, Repr

/-- The per-block mapping of `parseICSFeed` (`src/unnamed/part_000`
lines 12-27); `genId i` models the `Math.random()` fallback id of the i-th
block. -/
def convertVevents (genId : Nat → String) (vevents : List RawVevent) : List ICSEvent :=
  vevents.enum.map (fun p =>
    { id := orElseStr p.2.uid (genId p.1)
      title := orElseStr p.2.summary "Untitled Event"
      description := orElseStr p.2.description ""
      startDate := p.2.startDate
      endDate := p.2.endDate
      location := orElseStr p.2.location ""
      url := orElseStr p.2.url ""
      type := "assignment" })

/-- `parseICSFeed` from `src/unnamed/part_000` (lines 4-34).  The external
`ical.js` decode step (`ICAL.parse` + component extraction) is abstracted as
the oracle `decode`, returning `none` exactly when it throws on malformed feed
text; the wrapper catches that and re-throws `'Failed to parse ICS feed'`,
modelled as `Except.error`. -/
def parseICSFeed (decode : String → Option (List RawVevent))
    (genId : Nat → String) (icsContent : String) : Except String (List ICSEvent) :=
  match decode icsContent with
  | none => Except.error "Failed to parse ICS feed"
  | some vevents => Except.ok (convertVevents genId vevents)

/-- `priorityColors` from `src/App.js` (lines 746-750). -/
def priorityColors (p : String) : String :=
  if p = "High" then "#e53935"
  else if p = "Medium" then "#fb8c00"
  else if p = "Low" then "#43a047"
  else ""

/-- The manual-assignment form state (`newAssignment` in `src/App.js`). -/
structure NewAssignmentForm where
  title : String := ""
  description : String := ""
  dueDate : String := ""
  time : String := "23:59"
  course : String := ""
  assignmentType : String := ""
  priority : String := "Medium"
deriving DecidableEq, Repr

/-- `addNewAssignment` from `src/App.js` (lines 2132-2212), acting on the pair
(manualAssignments, googleEvents).  `nowId` models `Date.now()` and `notifIds`
the externally scheduled notification ids.  Validation failure (empty title or
empty dueDate — JS falsiness on the form strings) returns both stores
unchanged. -/
def addNewAssignment (form : NewAssignmentForm) (nowId : String)
    (notifIds : List String) (manualAssignments googleEvents : Store) :
    Store × Store :=
  if form.title = "" ∨ form.dueDate = "" then (manualAssignments, googleEvents)
  else
    let assignment : Event :=
      { title := form.title
        description := form.description
        time := form.time
        course := form.course
        assignmentType := form.assignmentType
        type := "assignment"
        completed := false
        priority := form.priority
        dotColorByPriority := priorityColors form.priority
        dotColor := priorityColors form.priority
        id := nowId
        notificationIds := notifIds }
    (setEntry manualAssignments form.dueDate
       (getBucket manualAssignments form.dueDate ++ [assignment]),
     setEntry googleEvents form.dueDate
       (getBucket googleEvents form.dueDate ++ [assignment]))

/-! ### Merge-engine infrastructure lemmas -/

theorem getBucket_setEntry {α : Type} (s : List (String × List α)) (k : String)
    (v : List α) (d : String) :
    getBucket (setEntry s k v) d = if d = k then v else getBucket s d := by
  induction s with
  | nil =>
    by_cases h : d = k
    · subst h; simp [setEntry, getBucket, getEntry]
    · simp [setEntry, getBucket, getEntry, h, show ¬(k = d) from fun hh => h hh.symm]
  | cons p rest ih =>
    obtain ⟨q, w⟩ := p
    simp only [setEntry]
    by_cases hq : q = k
    · rw [if_pos hq]; subst hq
      by_cases hd : d = q
      · subst hd; simp [getBucket, getEntry]
      · simp [getBucket, getEntry, hd, show ¬(q = d) from fun hh => hd hh.symm]
    · rw [if_neg hq]
      by_cases hd : d = q
      · subst hd
        simp [getBucket, getEntry, hq]
      · simpa [getBucket, getEntry, show ¬(q = d) from fun hh => hd hh.symm] using ih

/-- Whether an event with id `i` occurs in the list. -/
def idMem (es : List Event) (i : String) : Bool :=
  es.any (fun x => x.id == i)

/-- The residue of a batch after the in-batch upserts: only the last occurrence
of each id survives, in order of last occurrence. -/
def lastUpserts : List Event → List Event
  | [] => []
  | e :: rest => if idMem rest e.id then lastUpserts rest else e :: lastUpserts rest

/-- Sequential upserts of a batch into one bucket. -/
def bucketMerge (b : List Event) (es : List Event) : List Event :=
  es.foldl upsertBucket b

theorem str_beq_symm (a b : String) : (a == b) = (b == a) := by
  by_cases h : a = b
  · subst h; rfl
  · rw [beq_false_of_ne h, beq_false_of_ne (Ne.symm h)]

theorem idMem_cons (e x : Event) (rest : List Event) :
    idMem (e :: rest) x.id = ((e.id == x.id) || idMem rest x.id) := by
  simp [idMem, List.any_cons]

theorem not_idMem_cons (e x : Event) (rest : List Event) :
    (!(idMem (e :: rest) x.id)) = ((x.id != e.id) && !(idMem rest x.id)) := by
  rw [idMem_cons, Bool.not_or, bne, str_beq_symm]

theorem filter_upsert (b : List Event) (e : Event) (rest : List Event) :
    (b.filter (fun x => x.id != e.id)).filter (fun x => !(idMem rest x.id)) =
      b.filter (fun x => !(idMem (e :: rest) x.id)) := by
  rw [List.filter_filter]
  apply List.filter_congr
  intro x _
  rw [not_idMem_cons, Bool.and_comm]

theorem bucketMerge_eq (es : List Event) :
    ∀ b : List Event,
      bucketMerge b es = b.filter (fun x => !(idMem es x.id)) ++ lastUpserts es := by
  induction es with
  | nil =>
    intro b
    simp [bucketMerge, lastUpserts, idMem]
  | cons e rest ih =>
    intro b
    show bucketMerge (upsertBucket b e) rest = _
    rw [ih, upsertBucket, List.filter_append, filter_upsert]
    cases h : idMem rest e.id with
    | false =>
      have hl : lastUpserts (e :: rest) = e :: lastUpserts rest := by
        simp [lastUpserts, h]
      simp [hl, h]
    | true =>
      have hl : lastUpserts (e :: rest) = lastUpserts rest := by
        simp [lastUpserts, h]
      simp [hl, h]

theorem mem_of_mem_lastUpserts {x : Event} :
    ∀ {es : List Event}, x ∈ lastUpserts es → x ∈ es := by
  intro es
  induction es with
  | nil => simp [lastUpserts]
  | cons e rest ih =>
    simp only [lastUpserts]
    by_cases h : idMem rest e.id = true
    · rw [if_pos h]
      intro hx
      exact List.mem_cons_of_mem _ (ih hx)
    · rw [if_neg h]
      intro hx
      rcases List.mem_cons.mp hx with hx | hx
      · exact hx ▸ List.mem_cons_self _ _
      · exact List.mem_cons_of_mem _ (ih hx)

theorem idMem_of_mem {x : Event} {es : List Event} (h : x ∈ es) :
    idMem es x.id = true := by
  simp only [idMem, List.any_eq_true]
  exact ⟨x, h, by simp⟩

theorem filter_lastUpserts (es : List Event) :
    (lastUpserts es).filter (fun x => !(idMem es x.id)) = [] := by
  rw [List.filter_eq_nil_iff]
  intro x hx
  rw [idMem_of_mem (mem_of_mem_lastUpserts hx)]
  simp

theorem bucketMerge_idem (b : List Event) (es : List Event) :
    bucketMerge (bucketMerge b es) es = bucketMerge b es := by
  rw [bucketMerge_eq, bucketMerge_eq, List.filter_append, filter_lastUpserts,
    List.append_nil, List.filter_filter]
  congr 1
  apply List.filter_congr
  intro x _
  rw [Bool.and_self]

theorem getBucket_mergeKeyed (ps : List (String × Event)) :
    ∀ (s : Store) (d : String),
      getBucket (mergeKeyed s ps) d =
        bucketMerge (getBucket s d) ((ps.filter (fun p => p.1 == d)).map Prod.snd) := by
  induction ps with
  | nil => intro s d; rfl
  | cons p rest ih =>
    intro s d
    obtain ⟨k, e⟩ := p
    show getBucket (mergeKeyed (upsertStore s k e) rest) d = _
    rw [ih]
    by_cases h : k = d
    · subst h
      have hf : (((k, e) :: rest).filter (fun p => p.1 == k)).map Prod.snd =
          e :: (rest.filter (fun p => p.1 == k)).map Prod.snd := by simp
      have hb : getBucket (upsertStore s k e) k = upsertBucket (getBucket s k) e := by
        rw [upsertStore, getBucket_setEntry]; simp
      rw [hf, hb]
      rfl
    · have hf : (((k, e) :: rest).filter (fun p => p.1 == d)).map Prod.snd =
          (rest.filter (fun p => p.1 == d)).map Prod.snd := by
        simp [List.filter_cons, beq_false_of_ne h]
      have hb : getBucket (upsertStore s k e) d = getBucket s d := by
        rw [upsertStore, getBucket_setEntry, if_neg (fun hh => h hh.symm)]
      rw [hf, hb]

theorem getBucket_mergeKeyed_idem (s : Store) (ps : List (String × Event)) (d : String) :
    getBucket (mergeKeyed (mergeKeyed s ps) ps) d = getBucket (mergeKeyed s ps) d := by
  rw [getBucket_mergeKeyed, getBucket_mergeKeyed, bucketMerge_idem, ← getBucket_mergeKeyed]

theorem mergeAppsScriptEvents_eq (evs : List Event) :
    ∀ s : Store, mergeAppsScriptEvents s evs = mergeKeyed s (evs.map (fun e => (e.date, e))) := by
  induction evs with
  | nil => intro s; rfl
  | cons e rest ih =>
    intro s
    show mergeAppsScriptEvents (upsertStore s e.date e) rest = _
    rw [ih]
    rfl

theorem mergeGoogleCalendarEvents_eq (ges : List GEvent) :
    ∀ s : Store,
      mergeGoogleCalendarEvents s ges = mergeKeyed s (ges.filterMap adaptGoogleCalendarEvent) := by
  induction ges with
  | nil => intro s; rfl
  | cons g rest ih =>
    intro s
    show mergeGoogleCalendarEvents
        (match adaptGoogleCalendarEvent g with
         | none => s
         | some (dateKey, e) => upsertStore s dateKey e) rest = _
    cases h : adaptGoogleCalendarEvent g with
    | none =>
      rw [List.filterMap_cons, h]
      exact ih s
    | some p =>
      obtain ⟨dk, e⟩ := p
      rw [List.filterMap_cons, h]
      exact ih _

theorem adaptGoogleCalendarEvent_id {g : GEvent} {dk : String} {e : Event}
    (h : adaptGoogleCalendarEvent g = some (dk, e)) : e.id = g.id := by
  cases hs : g.start with
  | none => rw [adaptGoogleCalendarEvent, hs] at h; exact absurd h (by simp)
  | some sd =>
    simp only [adaptGoogleCalendarEvent, hs, Option.some.injEq, Prod.mk.injEq] at h
    obtain ⟨h1, h2⟩ := h
    subst h2
    rfl

theorem mergeCanvas_preserves (batch : List (String × List Event)) :
    ∀ (s : Store) (d : String) (e : Event),
      e ∈ getBucket s d → e.type ≠ "CanvasAssignment" →
      e ∈ getBucket (mergeCanvasEvents s batch) d := by
  induction batch with
  | nil => intro s d e he _; exact he
  | cons p rest ih =>
    intro s d e he htype
    apply ih _ _ _ _ htype
    show e ∈ getBucket (setEntry s p.1 _) d
    rw [getBucket_setEntry]
    by_cases hd : d = p.1
    · rw [if_pos hd]
      apply List.mem_append_left
      apply List.mem_filter.mpr
      refine ⟨hd ▸ he, ?_⟩
      simp [htype]
    · rw [if_neg hd]
      exact he

/-- C2: merging the same batch of events twice (same `id`s, same computed
dateKeys — automatic here because the model ingests immutable event values)
leaves the store observationally equal to merging it once, for both the Apps
Script merge (`fetchGoogleEvents`) and the Google Calendar merge
(`fetchGoogleCalendarEventsData`); each single ingest is the
upsert-by-id-within-bucket: existing events with the incoming `id` are dropped
from the target bucket and the incoming event is appended. -/
theorem merge_reapply_idempotent (s : Store) (e : Event) (evs : List Event)
    (ges : List GEvent) (d : String) :
    getBucket (upsertStore s d e) d =
      (getBucket s d).filter (fun x => x.id != e.id) ++ [e] ∧
    getBucket (mergeAppsScriptEvents (mergeAppsScriptEvents s evs) evs) d =
      getBucket (mergeAppsScriptEvents s evs) d ∧
    getBucket (mergeGoogleCalendarEvents (mergeGoogleCalendarEvents s ges) ges) d =
      getBucket (mergeGoogleCalendarEvents s ges) d := by
  refine ⟨?_, ?_, ?_⟩
  · rw [upsertStore, getBucket_setEntry, if_pos rfl, upsertBucket]
  · simp only [mergeAppsScriptEvents_eq]
    exact getBucket_mergeKeyed_idem _ _ _
  · simp only [mergeGoogleCalendarEvents_eq]
    exact getBucket_mergeKeyed_idem _ _ _

/-- C1 counterexample: the Google Calendar merge dedups by `id` alone, with no
`sourceType` guard.  A pre-existing Apps-Script event (`type = "GoogleEvent"`)
whose id string equals an incoming Google Calendar batch event's id is removed
by the merge, contradicting the claim that an event of a different sourceType
always survives an id collision. -/
theorem crossSource_id_collision_counterexample :
    (({ id := "evt-1", type := "GoogleEvent", title := "Proxy copy" } : Event) ∈
        getBucket [("2024-12-16",
          [{ id := "evt-1", type := "GoogleEvent", title := "Proxy copy" }])] "2024-12-16") ∧
    ({ id := "evt-1", type := "GoogleEvent", title := "Proxy copy" } : Event).type ≠ "google" ∧
    (∀ x ∈ getBucket (mergeGoogleCalendarEvents
        [("2024-12-16", [{ id := "evt-1", type := "GoogleEvent", title := "Proxy copy" }])]
        [{ id := "evt-1", summary := some " ",
           start := some ⟨2024, 12, 16, 9, 0⟩ }]) "2024-12-16", x.type = "google") ∧
    (({ id := "evt-1", type := "GoogleEvent", title := "Proxy copy" } : Event) ∉
      getBucket (mergeGoogleCalendarEvents
        [("2024-12-16", [{ id := "evt-1", type := "GoogleEvent", title := "Proxy copy" }])]
        [{ id := "evt-1", summary := some " ",
           start := some ⟨2024, 12, 16, 9, 0⟩ }]) "2024-12-16") := by
  decide

/-- C1 (amended): a batch merge never removes an event of another sourceType
whose id differs from every incoming event's id.  On the Google Calendar path
survival requires the id to differ from all batch ids (dedup is by id alone);
on the Canvas path (`fetchCanvasEvents`) every event that is not a
`CanvasAssignment` survives, even when its id collides with an incoming
Canvas id. -/
theorem mergeBatch_cross_source_preservation (s : Store) (ges : List GEvent)
    (batch : List (String × List Event)) (d : String) (e : Event) :
    (e ∈ getBucket s d → (∀ g ∈ ges, e.id ≠ g.id) →
      e ∈ getBucket (mergeGoogleCalendarEvents s ges) d) ∧
    (e ∈ getBucket s d → e.type ≠ "CanvasAssignment" →
      e ∈ getBucket (mergeCanvasEvents s batch) d) := by
  constructor
  · intro he hid
    rw [mergeGoogleCalendarEvents_eq, getBucket_mergeKeyed, bucketMerge_eq]
    apply List.mem_append_left
    apply List.mem_filter.mpr
    refine ⟨he, ?_⟩
    have hfalse : idMem (((ges.filterMap adaptGoogleCalendarEvent).filter
        (fun p => p.1 == d)).map Prod.snd) e.id = false := by
      rw [idMem, List.any_eq_false]
      intro x hx
      obtain ⟨p, hp, hpx⟩ := List.mem_map.mp hx
      obtain ⟨hp', _⟩ := List.mem_filter.mp hp
      obtain ⟨g, hg, hadapt⟩ := List.mem_filterMap.mp hp'
      have hident : p.2.id = g.id :=
        adaptGoogleCalendarEvent_id (show _ = some (p.1, p.2) from hadapt)
      intro hbeq
      apply hid g hg
      have hxe : x.id = e.id := eq_of_beq hbeq
      rw [← hxe, ← hpx, hident]
    rw [hfalse]
    rfl
  · intro he htype
    exact mergeCanvas_preserves batch s d e he htype

/-- C1 witness: a concrete instance of each conjunct of the amended claim. -/
theorem mergeBatch_cross_source_preservation_witness :
    (({ id := "keep-1", type := "GoogleEvent" } : Event) ∈
        getBucket (mergeGoogleCalendarEvents
          [("2024-12-16", [{ id := "keep-1", type := "GoogleEvent" }])]
          [{ id := "g-2", summary := some "Standup",
             start := some ⟨2024, 12, 16, 10, 0⟩ }]) "2024-12-16") ∧
    (({ id := "keep-2", type := "assignment" } : Event) ∈
        getBucket (mergeCanvasEvents
          [("2024-12-17", [{ id := "keep-2", type := "assignment" }])]
          [("2024-12-17", [{ id := "keep-2", type := "CanvasAssignment" }])]) "2024-12-17") :=
  ⟨(mergeBatch_cross_source_preservation _ _ [] _ _).1 (by decide) (by decide),
   (mergeBatch_cross_source_preservation _ [] _ _ _).2 (by decide) (by decide)⟩

theorem mem_getAllAssignments {s : Store} {x : Event} :
    x ∈ getAllAssignments s ↔
      ∃ d es e, (d, es) ∈ s ∧ e ∈ es ∧
        (e.type = "assignment" ∨ e.type = "CanvasAssignment") ∧
        x = { e with dueDate := d } := by
  induction s with
  | nil => simp [getAllAssignments]
  | cons p rest ih =>
    obtain ⟨d0, es0⟩ := p
    constructor
    · intro hx
      rcases List.mem_append.mp hx with hx | hx
      · obtain ⟨e, he, hex⟩ := List.mem_map.mp hx
        obtain ⟨he1, he2⟩ := List.mem_filter.mp he
        refine ⟨d0, es0, e, List.mem_cons_self _ _, he1, ?_, hex.symm⟩
        simpa using he2
      · obtain ⟨d, es, e, hmem, h2, h3, h4⟩ := ih.mp hx
        exact ⟨d, es, e, List.mem_cons_of_mem _ hmem, h2, h3, h4⟩
    · rintro ⟨d, es, e, hmem, h2, h3, h4⟩
      rcases List.mem_cons.mp hmem with hm | hm
      · apply List.mem_append_left
        obtain ⟨hd, hes⟩ := Prod.mk.injEq _ _ _ _ ▸ hm
        subst hd; subst hes
        exact List.mem_map.mpr ⟨e, List.mem_filter.mpr ⟨h2, by simpa using h3⟩, h4.symm⟩
      · exact List.mem_append.mpr (Or.inr (ih.mpr ⟨d, es, e, hm, h2, h3, h4⟩))

/-- C3: the flattened assignment view (`getAllAssignments`) contains exactly
the `assignment` (ManualAssignment) and `CanvasAssignment` (FeedAssignment)
events of the store, each with `dueDate` set to its bucket's dateKey; in
particular no `study`, `google` or `GoogleEvent` typed record ever appears in
the view. -/
theorem getAllAssignments_characterization (s : Store) (x : Event) :
    (x ∈ getAllAssignments s ↔
      ∃ d es e, (d, es) ∈ s ∧ e ∈ es ∧
        (e.type = "assignment" ∨ e.type = "CanvasAssignment") ∧
        x = { e with dueDate := d }) ∧
    (x ∈ getAllAssignments s →
      (x.type = "assignment" ∨ x.type = "CanvasAssignment") ∧
      x.type ≠ "study" ∧ x.type ≠ "google" ∧ x.type ≠ "GoogleEvent") := by
  refine ⟨mem_getAllAssignments, ?_⟩
  intro hx
  obtain ⟨d, es, e, _, _, h3, h4⟩ := mem_getAllAssignments.mp hx
  subst h4
  refine ⟨h3, ?_, ?_, ?_⟩ <;>
    rcases h3 with h3 | h3 <;> simp [h3]

/-- C3 witness: in a store holding one event of every sourceType in one
bucket, the view keeps exactly the manual and Canvas assignments. -/
theorem getAllAssignments_characterization_witness :
    (({ id := "m1", type := "assignment", dueDate := "2024-12-16" } : Event).type = "assignment" ∨
      ({ id := "m1", type := "assignment", dueDate := "2024-12-16" } : Event).type = "CanvasAssignment") ∧
    ({ id := "m1", type := "assignment", dueDate := "2024-12-16" } : Event).type ≠ "study" ∧
    ({ id := "m1", type := "assignment", dueDate := "2024-12-16" } : Event).type ≠ "google" ∧
    ({ id := "m1", type := "assignment", dueDate := "2024-12-16" } : Event).type ≠ "GoogleEvent" :=
  (getAllAssignments_characterization
    [("2024-12-16",
      [{ id := "m1", type := "assignment" }, { id := "s1", type := "study" },
       { id := "g1", type := "google" }, { id := "p1", type := "GoogleEvent" }])]
    { id := "m1", type := "assignment", dueDate := "2024-12-16" }).2 (by decide)

/-- C4: the classifier resolves by first match over the ordered keyword table:
any title containing a Classes keyword yields `("Classes", "#1e88e5")`
regardless of later-table keywords, so "Math Homework" (which also contains
the Assignments/Tests keyword "homework") is classified as Classes, not
Assignments/Tests.  Determinism is immediate: `categorizeEvent` is a pure
function of the title. -/
theorem categorizeEvent_first_match :
    categorizeEvent "Math Homework" = ("Classes", "#1e88e5") ∧
    (∀ title : String,
      (strIncludes (jsToLower title) "hon" || strIncludes (jsToLower title) "humanities" ||
       strIncludes (jsToLower title) "math" || strIncludes (jsToLower title) "calculus" ||
       strIncludes (jsToLower title) "physics" || strIncludes (jsToLower title) "spanish") = true →
      categorizeEvent title = ("Classes", "#1e88e5")) := by
  refine ⟨by decide, ?_⟩
  intro title h
  simp [categorizeEvent, h]

/-- C4 witness: a title containing both the Classes keyword "spanish" and the
Assignments/Tests keyword "essay" resolves to Classes. -/
theorem categorizeEvent_first_match_witness :
    categorizeEvent "Spanish essay draft" = ("Classes", "#1e88e5") :=
  categorizeEvent_first_match.2 "Spanish essay draft" (by decide)

/-- The CanvasLike flag as worded by the spec: the reserved color marker
`colorId = '11'`, or one of the keywords "assignment", "homework", "quiz",
"essay", "project", "hw", "paper" occurring case-insensitively in the combined
title+description. -/
def specCanvasLikeFlag (colorId : Option String) (title description : String) : Prop :=
  colorId = some "11" ∨
    (strIncludes (jsToLower (title ++ " " ++ description)) "assignment" = true ∨
     strIncludes (jsToLower (title ++ " " ++ description)) "homework" = true ∨
     strIncludes (jsToLower (title ++ " " ++ description)) "quiz" = true ∨
     strIncludes (jsToLower (title ++ " " ++ description)) "essay" = true ∨
     strIncludes (jsToLower (title ++ " " ++ description)) "project" = true ∨
     strIncludes (jsToLower (title ++ " " ++ description)) "hw" = true ∨
     strIncludes (jsToLower (title ++ " " ++ description)) "paper" = true)

/-- C5: the code's CanvasLike flag (`colorId === '11' || isCanvasByKeyword`)
holds exactly as the spec states it — reserved color marker or one of the
seven keywords in combined title+description — and the marker alone forces the
flag (priority over the keyword check).  The flag is computed without
consulting `categorizeEvent`, so it is orthogonal to `category`. -/
theorem isCanvasFlag_spec (colorId : Option String) (title description : String) :
    (isCanvasFlag colorId title description = true ↔
      specCanvasLikeFlag colorId title description) ∧
    isCanvasFlag (some "11") title description = true := by
  constructor
  · simp only [isCanvasFlag, isCanvasByKeyword, isRedEvent, specCanvasLikeFlag,
      Bool.or_eq_true, beq_iff_eq]
    tauto
  · simp [isCanvasFlag, isRedEvent]

theorem generate_mono (options : StudyOptions) :
    ∀ (assignments : List SAssignment) (init : SBStore) (k : String) (b : StudyBlock),
      b ∈ getBucket init k →
      b ∈ getBucket (assignments.foldl (fun studyBlocks assignment =>
        let studyDate := subtractDays assignment.startDate options.daysBefore
        let studyDateKey := getDateKey studyDate
        setEntry studyBlocks studyDateKey
          (getBucket studyBlocks studyDateKey ++ [mkStudyBlock assignment options studyDate])) init) k := by
  intro assignments
  induction assignments with
  | nil => intro init k b hb; exact hb
  | cons a0 rest ih =>
    intro init k b hb
    apply ih
    rw [getBucket_setEntry]
    by_cases hk : k = getDateKey (subtractDays a0.startDate options.daysBefore)
    · rw [if_pos hk]
      exact List.mem_append_left _ (hk ▸ hb)
    · rw [if_neg hk]
      exact hb

theorem generate_mem (options : StudyOptions) :
    ∀ (assignments : List SAssignment) (init : SBStore) (a : SAssignment),
      a ∈ assignments →
      mkStudyBlock a options (subtractDays a.startDate options.daysBefore) ∈
        getBucket (assignments.foldl (fun studyBlocks assignment =>
          let studyDate := subtractDays assignment.startDate options.daysBefore
          let studyDateKey := getDateKey studyDate
          setEntry studyBlocks studyDateKey
            (getBucket studyBlocks studyDateKey ++ [mkStudyBlock assignment options studyDate])) init)
        (getDateKey (subtractDays a.startDate options.daysBefore)) := by
  intro assignments
  induction assignments with
  | nil => intro init a ha; exact absurd ha (List.not_mem_nil a)
  | cons a0 rest ih =>
    intro init a ha
    rcases List.mem_cons.mp ha with ha | ha
    · subst ha
      rw [List.foldl_cons]
      apply generate_mono options rest
      show mkStudyBlock a options (subtractDays a.startDate options.daysBefore) ∈
        getBucket (setEntry init (getDateKey (subtractDays a.startDate options.daysBefore))
          (getBucket init (getDateKey (subtractDays a.startDate options.daysBefore)) ++
            [mkStudyBlock a options (subtractDays a.startDate options.daysBefore)]))
          (getDateKey (subtractDays a.startDate options.daysBefore))
      rw [getBucket_setEntry, if_pos rfl]
      exact List.mem_append_right _ (List.mem_singleton.mpr rfl)
    · exact ih _ a ha

theorem total_setEntry_append (s : SBStore) (k : String) (b : StudyBlock) :
    totalStudyBlocks (setEntry s k (getBucket s k ++ [b])) = totalStudyBlocks s + 1 := by
  induction s with
  | nil => simp [setEntry, getBucket, getEntry, totalStudyBlocks]
  | cons p rest ih =>
    obtain ⟨q, w⟩ := p
    by_cases hq : q = k
    · subst hq
      simp [setEntry, getBucket, getEntry, totalStudyBlocks]
      omega
    · simp only [setEntry, if_neg hq, totalStudyBlocks, List.map_cons, List.sum_cons,
        getBucket, getEntry, if_neg hq] at *
      omega

theorem generate_total (options : StudyOptions) :
    ∀ (assignments : List SAssignment) (init : SBStore),
      totalStudyBlocks (assignments.foldl (fun studyBlocks assignment =>
        let studyDate := subtractDays assignment.startDate options.daysBefore
        let studyDateKey := getDateKey studyDate
        setEntry studyBlocks studyDateKey
          (getBucket studyBlocks studyDateKey ++ [mkStudyBlock assignment options studyDate])) init) =
      totalStudyBlocks init + assignments.length := by
  intro assignments
  induction assignments with
  | nil => intro init; rfl
  | cons a0 rest ih =>
    intro init
    rw [List.foldl_cons, ih, total_setEntry_append]
    simp [Nat.add_assoc, Nat.add_comm 1 rest.length]

/-- C7: in default single-slot mode with `daysBefore = 1`, every assignment
dated 2024-12-16 yields a study block in the "2024-12-15" bucket, at
`studyTime` with the configured `duration` and `relatedAssignment` equal to
the assignment's id, and the generator emits exactly one block per input
assignment. -/
theorem generateStudyBlocks_day_before (options : StudyOptions)
    (assignments : List SAssignment) (a : SAssignment)
    (hdays : options.daysBefore = 1) (ha : a ∈ assignments)
    (hy : a.startDate.year = 2024) (hm : a.startDate.month = 12)
    (hd : a.startDate.day = 16) :
    getDateKey a.startDate = "2024-12-16" ∧
    getDateKey (subtractDays a.startDate options.daysBefore) = "2024-12-15" ∧
    mkStudyBlock a options (subtractDays a.startDate options.daysBefore) ∈
      getBucket (generateStudyBlocks assignments options) "2024-12-15" ∧
    (mkStudyBlock a options (subtractDays a.startDate options.daysBefore)).time =
      some options.studyTime ∧
    (mkStudyBlock a options (subtractDays a.startDate options.daysBefore)).duration =
      options.duration ∧
    (mkStudyBlock a options (subtractDays a.startDate options.daysBefore)).relatedAssignment =
      a.id ∧
    totalStudyBlocks (generateStudyBlocks assignments options) = assignments.length := by
  have hkey : getDateKey a.startDate = "2024-12-16" := by
    simp only [getDateKey]
    rw [hy, hm, hd]
    decide
  have h15 : getDateKey (subtractDays a.startDate options.daysBefore) = "2024-12-15" := by
    rw [hdays]
    show getDateKey (prevDay a.startDate) = _
    simp only [prevDay, getDateKey]
    rw [hd]
    simp only [show (16 : Nat) > 1 from by omega, if_true]
    rw [hy, hm]
    decide
  refine ⟨hkey, h15, ?_, rfl, rfl, rfl, ?_⟩
  · have hmem := generate_mem options assignments [] a ha
    rw [h15] at hmem
    exact hmem
  · have htot := generate_total options assignments []
    rw [show totalStudyBlocks ([] : SBStore) = 0 from rfl, Nat.zero_add] at htot
    exact htot

/-- C7 witness: the default options on a single assignment dated
2024-12-16. -/
theorem generateStudyBlocks_day_before_witness :
    getDateKey (JSDate.mk 2024 12 16 23 59) = "2024-12-16" ∧
    getDateKey (subtractDays (JSDate.mk 2024 12 16 23 59) ({} : StudyOptions).daysBefore) =
      "2024-12-15" ∧
    mkStudyBlock ⟨"a1", "Math", JSDate.mk 2024 12 16 23 59⟩ {}
        (subtractDays (JSDate.mk 2024 12 16 23 59) ({} : StudyOptions).daysBefore) ∈
      getBucket (generateStudyBlocks [⟨"a1", "Math", JSDate.mk 2024 12 16 23 59⟩] {})
        "2024-12-15" ∧
    (mkStudyBlock ⟨"a1", "Math", JSDate.mk 2024 12 16 23 59⟩ {}
        (subtractDays (JSDate.mk 2024 12 16 23 59) ({} : StudyOptions).daysBefore)).time =
      some ({} : StudyOptions).studyTime ∧
    (mkStudyBlock ⟨"a1", "Math", JSDate.mk 2024 12 16 23 59⟩ {}
        (subtractDays (JSDate.mk 2024 12 16 23 59) ({} : StudyOptions).daysBefore)).duration =
      ({} : StudyOptions).duration ∧
    (mkStudyBlock ⟨"a1", "Math", JSDate.mk 2024 12 16 23 59⟩ {}
        (subtractDays (JSDate.mk 2024 12 16 23 59) ({} : StudyOptions).daysBefore)).relatedAssignment =
      "a1" ∧
    totalStudyBlocks (generateStudyBlocks [⟨"a1", "Math", JSDate.mk 2024 12 16 23 59⟩] {}) =
      [(⟨"a1", "Math", JSDate.mk 2024 12 16 23 59⟩ : SAssignment)].length :=
  generateStudyBlocks_day_before {} [⟨"a1", "Math", JSDate.mk 2024 12 16 23 59⟩]
    ⟨"a1", "Math", JSDate.mk 2024 12 16 23 59⟩ rfl (by decide) rfl rfl rfl

/-- C6: multi-slot generation with `maxStudyBlocksPerDay = 2` and three
assignments mapping to the same study date emits exactly the two blocks for
the first two assignments (input order), timed by the per-date counter as
`preferredTimes[count % length]`, and silently drops the third — the whole
result map is the single two-block bucket. -/
theorem scheduleStudyBlocks_daily_cap (prefs : StudyPreferences)
    (a1 a2 a3 : SAssignment) (k : String)
    (hmax : prefs.maxStudyBlocksPerDay = 2)
    (h1 : getDateKey (subtractDays a1.startDate prefs.daysBefore) = k)
    (h2 : getDateKey (subtractDays a2.startDate prefs.daysBefore) = k)
    (h3 : getDateKey (subtractDays a3.startDate prefs.daysBefore) = k) :
    scheduleStudyBlocks [a1, a2, a3] prefs =
      [(k, [{ id := "study_" ++ a1.id, title := "Study for " ++ a1.title,
              description := "Prepare for: " ++ a1.title,
              time := prefs.preferredTimes[0 % prefs.preferredTimes.length]?,
              duration := prefs.duration, type := "study",
              relatedAssignment := a1.id,
              studyDate := subtractDays a1.startDate prefs.daysBefore },
            { id := "study_" ++ a2.id, title := "Study for " ++ a2.title,
              description := "Prepare for: " ++ a2.title,
              time := prefs.preferredTimes[1 % prefs.preferredTimes.length]?,
              duration := prefs.duration, type := "study",
              relatedAssignment := a2.id,
              studyDate := subtractDays a2.startDate prefs.daysBefore }])] := by
  subst h1
  simp only [scheduleStudyBlocks, List.foldl_cons, List.foldl_nil, hmax, h2, h3,
    getEntry, getBucket, setEntry, Option.getD_none, Option.getD_some, if_pos rfl]
  norm_num

/-- C6 witness: three same-date assignments under a cap of 2 with the default
preferred times. -/
theorem scheduleStudyBlocks_daily_cap_witness :
    scheduleStudyBlocks
        [⟨"a1", "T1", JSDate.mk 2024 12 16 0 0⟩, ⟨"a2", "T2", JSDate.mk 2024 12 16 0 0⟩,
         ⟨"a3", "T3", JSDate.mk 2024 12 16 0 0⟩]
        { maxStudyBlocksPerDay := 2 } =
      [("2024-12-15",
        [{ id := "study_a1", title := "Study for T1", description := "Prepare for: T1",
           time := some "19:00", duration := "1 hour", type := "study",
           relatedAssignment := "a1", studyDate := JSDate.mk 2024 12 15 0 0 },
         { id := "study_a2", title := "Study for T2", description := "Prepare for: T2",
           time := some "20:00", duration := "1 hour", type := "study",
           relatedAssignment := "a2", studyDate := JSDate.mk 2024 12 15 0 0 }])] := by
  have h := scheduleStudyBlocks_daily_cap { maxStudyBlocksPerDay := 2 }
    ⟨"a1", "T1", JSDate.mk 2024 12 16 0 0⟩ ⟨"a2", "T2", JSDate.mk 2024 12 16 0 0⟩
    ⟨"a3", "T3", JSDate.mk 2024 12 16 0 0⟩ "2024-12-15" rfl (by decide) (by decide) (by decide)
  exact h.trans (by decide)

theorem priorityCompareLE_trans (a b c : Event)
    (hab : priorityCompareLE a b = true) (hbc : priorityCompareLE b c = true) :
    priorityCompareLE a c = true := by
  simp only [priorityCompareLE] at *
  by_cases h1 : priorityOrder a.priority = priorityOrder b.priority <;>
    by_cases h2 : priorityOrder b.priority = priorityOrder c.priority
  · rw [if_pos h1] at hab
    rw [if_pos h2] at hbc
    rw [if_pos (h1.trans h2)]
    exact decide_eq_true (le_trans (of_decide_eq_true hab) (of_decide_eq_true hbc))
  · rw [if_neg h2] at hbc
    rw [if_neg (fun hh => h2 (h1.symm.trans hh))]
    rw [h1]
    exact hbc
  · rw [if_neg h1] at hab
    rw [if_neg (fun hh => h1 (hh.trans h2.symm))]
    rw [← h2]
    exact hab
  · rw [if_neg h1] at hab
    rw [if_neg h2] at hbc
    have hlt1 : priorityOrder b.priority < priorityOrder a.priority := of_decide_eq_true hab
    have hlt2 : priorityOrder c.priority < priorityOrder b.priority := of_decide_eq_true hbc
    rw [if_neg (show priorityOrder a.priority ≠ priorityOrder c.priority by omega)]
    exact decide_eq_true (by omega)

theorem priorityCompareLE_total (a b : Event) :
    priorityCompareLE a b || priorityCompareLE b a := by
  simp only [priorityCompareLE]
  by_cases h : priorityOrder a.priority = priorityOrder b.priority
  · rw [if_pos h, if_pos h.symm]
    simp only [Bool.or_eq_true, decide_eq_true_eq]
    exact le_total a.dueDate b.dueDate
  · rw [if_neg h, if_neg (Ne.symm h)]
    simp only [Bool.or_eq_true, decide_eq_true_eq]
    omega

/-- C8: sorting the flattened assignment view by the `priority` key yields a
permutation of the view that is ordered by `priorityCompareLE` — descending
priority rank (High=3, Medium=2, Low=1) with ties broken by ascending
`dueDate` — and on the concrete view with priorities [Low, High, Medium] the
output order is [High, Medium, Low]. -/
theorem getSortedAssignments_priority_order :
    (∀ s : Store,
      (∀ e ∈ getAllAssignments s,
        e.priority = "High" ∨ e.priority = "Medium" ∨ e.priority = "Low") →
      (getSortedAssignments s "priority").Pairwise (fun a b => priorityCompareLE a b = true) ∧
      (getSortedAssignments s "priority").Perm (getAllAssignments s)) ∧
    getSortedAssignments
        [("2024-12-12", [{ id := "L", type := "assignment", priority := "Low" }]),
         ("2024-12-10", [{ id := "H", type := "assignment", priority := "High" }]),
         ("2024-12-11", [{ id := "M", type := "assignment", priority := "Medium" }])]
        "priority" =
      [{ id := "H", type := "assignment", priority := "High", dueDate := "2024-12-10" },
       { id := "M", type := "assignment", priority := "Medium", dueDate := "2024-12-11" },
       { id := "L", type := "assignment", priority := "Low", dueDate := "2024-12-12" }] := by
  constructor
  · intro s _
    constructor
    · show (List.mergeSort (getAllAssignments s) priorityCompareLE).Pairwise _
      exact List.sorted_mergeSort (fun a b c => priorityCompareLE_trans a b c)
        (fun a b => priorityCompareLE_total a b) (getAllAssignments s)
    · show (List.mergeSort (getAllAssignments s) priorityCompareLE).Perm _
      exact List.mergeSort_perm (getAllAssignments s) priorityCompareLE
  · show (List.mergeSort (getAllAssignments _) priorityCompareLE) = _
    simp [getAllAssignments, List.mergeSort, List.splitInTwo, List.merge,
      priorityCompareLE, priorityOrder]

/-- C8 witness: the general part applied to the concrete [Low, High, Medium]
store. -/
theorem getSortedAssignments_priority_order_witness :
    (getSortedAssignments
        [("2024-12-12", [{ id := "L", type := "assignment", priority := "Low" }]),
         ("2024-12-10", [{ id := "H", type := "assignment", priority := "High" }]),
         ("2024-12-11", [{ id := "M", type := "assignment", priority := "Medium" }])]
        "priority").Pairwise (fun a b => priorityCompareLE a b = true) ∧
    (getSortedAssignments
        [("2024-12-12", [{ id := "L", type := "assignment", priority := "Low" }]),
         ("2024-12-10", [{ id := "H", type := "assignment", priority := "High" }]),
         ("2024-12-11", [{ id := "M", type := "assignment", priority := "Medium" }])]
        "priority").Perm (getAllAssignments
        [("2024-12-12", [{ id := "L", type := "assignment", priority := "Low" }]),
         ("2024-12-10", [{ id := "H", type := "assignment", priority := "High" }]),
         ("2024-12-11", [{ id := "M", type := "assignment", priority := "Medium" }])]) :=
  getSortedAssignments_priority_order.1
    [("2024-12-12", [{ id := "L", type := "assignment", priority := "Low" }]),
     ("2024-12-10", [{ id := "H", type := "assignment", priority := "High" }]),
     ("2024-12-11", [{ id := "M", type := "assignment", priority := "Medium" }])]
    (by decide)

/-- C9: `parseICSFeed` fails with the distinct `'Failed to parse ICS feed'`
error exactly when the external decode step rejects the feed text; on any
decodable input it returns the converted event sequence (one record per
decoded block) without raising, with no internal fallback — substituting
sample data is left entirely to the caller. -/
theorem parseICSFeed_error_contract (decode : String → Option (List RawVevent))
    (genId : Nat → String) (icsContent : String) :
    (decode icsContent = none →
      parseICSFeed decode genId icsContent = Except.error "Failed to parse ICS feed") ∧
    (∀ vevents, decode icsContent = some vevents →
      parseICSFeed decode genId icsContent = Except.ok (convertVevents genId vevents) ∧
      (convertVevents genId vevents).length = vevents.length) := by
  constructor
  · intro h
    simp only [parseICSFeed, h]
  · intro vs h
    refine ⟨by simp only [parseICSFeed, h], ?_⟩
    simp [convertVevents]

/-- C9 witness: a rejecting decoder produces the ParseError; an accepting
decoder produces the converted sequence. -/
theorem parseICSFeed_error_contract_witness :
    parseICSFeed (fun _ => none) (fun _ => "rand") "not a calendar" =
      Except.error "Failed to parse ICS feed" ∧
    parseICSFeed
        (fun _ => some [{ summary := some "Math Assignment Due",
                          startDate := JSDate.mk 2024 12 15 23 59,
                          endDate := JSDate.mk 2024 12 16 0 0 }])
        (fun _ => "rand") "BEGIN:VCALENDAR" =
      Except.ok (convertVevents (fun _ => "rand")
        [{ summary := some "Math Assignment Due",
           startDate := JSDate.mk 2024 12 15 23 59,
           endDate := JSDate.mk 2024 12 16 0 0 }]) :=
  ⟨(parseICSFeed_error_contract (fun _ => none) (fun _ => "rand") "not a calendar").1 rfl,
   ((parseICSFeed_error_contract _ (fun _ => "rand") "BEGIN:VCALENDAR").2 _ rfl).1⟩

/-- C10: submitting the manual-assignment form with an empty title or an empty
dueDate mutates neither the manual-assignments map nor the unified store;
with both fields non-empty, exactly one event with `type = "assignment"`,
`completed = false` and the chosen priority is appended to the `dueDate`
bucket of both structures. -/
theorem addNewAssignment_validation (form : NewAssignmentForm) (nowId : String)
    (notifIds : List String) (manualAssignments googleEvents : Store) :
    ((form.title = "" ∨ form.dueDate = "") →
      addNewAssignment form nowId notifIds manualAssignments googleEvents =
        (manualAssignments, googleEvents)) ∧
    (form.title ≠ "" → form.dueDate ≠ "" →
      ∃ a : Event, a.type = "assignment" ∧ a.completed = false ∧
        a.priority = form.priority ∧ a.title = form.title ∧ a.id = nowId ∧
        addNewAssignment form nowId notifIds manualAssignments googleEvents =
          (setEntry manualAssignments form.dueDate
            (getBucket manualAssignments form.dueDate ++ [a]),
           setEntry googleEvents form.dueDate
            (getBucket googleEvents form.dueDate ++ [a]))) := by
  constructor
  · intro h
    rw [addNewAssignment, if_pos h]
  · intro h1 h2
    refine ⟨{ title := form.title, description := form.description, time := form.time,
              course := form.course, assignmentType := form.assignmentType,
              type := "assignment", completed := false, priority := form.priority,
              dotColorByPriority := priorityColors form.priority,
              dotColor := priorityColors form.priority, id := nowId,
              notificationIds := notifIds },
            rfl, rfl, rfl, rfl, rfl, ?_⟩
    rw [addNewAssignment, if_neg (not_or.mpr ⟨h1, h2⟩)]

/-- C10 witness: an empty-title submission leaves both stores unchanged; a
fully filled form appends one assignment to both. -/
theorem addNewAssignment_validation_witness :
    addNewAssignment { title := "", dueDate := "2024-12-16" } "id0" [] [] [] = ([], []) ∧
    (∃ a : Event, a.type = "assignment" ∧ a.completed = false ∧
      a.priority = ({ title := "Essay", dueDate := "2024-12-16" } : NewAssignmentForm).priority ∧
      a.title = ({ title := "Essay", dueDate := "2024-12-16" } : NewAssignmentForm).title ∧
      a.id = "id1" ∧
      addNewAssignment { title := "Essay", dueDate := "2024-12-16" } "id1" [] [] [] =
        (setEntry [] ({ title := "Essay", dueDate := "2024-12-16" } : NewAssignmentForm).dueDate
          (getBucket ([] : Store)
            ({ title := "Essay", dueDate := "2024-12-16" } : NewAssignmentForm).dueDate ++ [a]),
         setEntry [] ({ title := "Essay", dueDate := "2024-12-16" } : NewAssignmentForm).dueDate
          (getBucket ([] : Store)
            ({ title := "Essay", dueDate := "2024-12-16" } : NewAssignmentForm).dueDate ++ [a]))) :=
  ⟨(addNewAssignment_validation { title := "", dueDate := "2024-12-16" } "id0" [] [] []).1
      (Or.inl rfl),
   (addNewAssignment_validation { title := "Essay", dueDate := "2024-12-16" } "id1" [] [] []).2
      (by decide) (by decide)⟩
